import Mathlib

/-!
# Verification of the CMP SIM-management MCP server

Shallow embedding of the repository's two core modules:

* `src/src/index.ts` — the MCP session (`MyMCP.init`): credential validation,
  CMP-client construction and the four registered tools
  (`query_sim_list`, `query_sim_detail`, `query_sim_usage`, `query_euicc_list`),
  each with its success/failure branching and text rendering.
* `src/unnamed/part_000` (the Hono `app`) — the `GET /authorize` and
  `POST /approve` handlers of the OAuth consent flow.

Upstream JSON payloads are dynamically typed in the source, so they are
embedded as a `JsValue` inductive together with JavaScript truthiness,
`typeof`-classification, strict numeric equality, the `||` default operator
and template-literal stringification.  Member access on non-objects is
modelled as yielding `undefined` (the JS `TypeError` raised by member access
on `undefined`/`null` is not modelled; no claim depends on it).

`cmp_client.ts` and `utils.ts` are not part of the sources; the few helpers
the claims touch (`getStateName`, `getProfileStatusName`,
`getProfileTypeName`, the HTML render helpers) are modelled from the spec,
each marked `Modelled from the spec:` in its doc comment.  The data-usage
formatter `formatDataUsage` is kept as an explicit function parameter
(`fmt`), so every theorem about the detail tool holds for an arbitrary
formatter.
-/

/-- A JavaScript runtime value, as the handlers see parsed JSON payloads. -/
inductive JsValue where
  | undef
  | nullV
  | bool (b : Bool)
  | num (n : Int)
  | str (s : String)
  | obj (fields : List (String × JsValue))
  | arr (elems : List JsValue)

namespace JsValue

/-- JavaScript truthiness (`if (v)`, `v && w`, `v || w`). -/
def truthy : JsValue → Bool
  | .undef => false
  | .nullV => false
  | .bool b => b
  | .num n => n != 0
  | .str s => s != ""
  | .obj _ => true
  | .arr _ => true

/-- Whether `typeof v === "object"` holds (`null`, plain objects and arrays). -/
def typeofObject : JsValue → Bool
  | .nullV => true
  | .obj _ => true
  | .arr _ => true
  | _ => false

/-- Property access `v[k]`; `undefined` when absent or when `v` is not an
object (member access on `undefined`/`null`, which JS makes throw, is not
modelled). -/
def get (v : JsValue) (k : String) : JsValue :=
  match v with
  | .obj fs => (fs.lookup k).getD .undef
  | _ => .undef

end JsValue

/-- The JS `||` operator: the left operand if truthy, otherwise the right. -/
def jsOr (v d : JsValue) : JsValue :=
  if v.truthy then v else d

/-- Strict equality of a value against a number literal (`v === n`). -/
def jsStrictEqNum (v : JsValue) (n : Int) : Bool :=
  match v with
  | .num m => m == n
  | _ => false

mutual

/-- Template-literal stringification of a value (JS `ToString`). -/
def jsToString : JsValue → String
  | .undef => "undefined"
  | .nullV => "null"
  | .bool b => cond b "true" "false"
  | .num n => toString n
  | .str s => s
  | .obj _ => "[object Object]"
  | .arr xs => String.intercalate "," (jsArrStrings xs)

/-- Array elements rendered for `Array.prototype.toString` (holes, `null`
and `undefined` print as the empty string). -/
def jsArrStrings : List JsValue → List String
  | [] => []
  | .undef :: vs => "" :: jsArrStrings vs
  | .nullV :: vs => "" :: jsArrStrings vs
  | v :: vs => jsToString v :: jsArrStrings vs

end

/-- Elements of an array value; the empty list for any non-array. -/
def jsElems : JsValue → List JsValue
  | .arr xs => xs
  | _ => []

/-- Whether `pat` occurs as a contiguous sublist, checked at every suffix. -/
def subOccurs (pat : List Char) : List Char → Bool
  | [] => pat.isEmpty
  | c :: rest => pat.isPrefixOf (c :: rest) || subOccurs pat rest

/-- The JS string method `s.includes(pat)`: substring occurrence. -/
def jsIncludes (s pat : String) : Bool :=
  subOccurs pat.data s.data

/-- Digits of a decimal numeral, most significant first, as a natural. -/
def decDigitsVal (cs : List Char) : Nat :=
  cs.foldl (fun acc c => acc * 10 + (c.toNat - '0'.toNat)) 0

/-- The JS builtin `parseInt` with no radix argument on the decimal forms the
handlers meet: leading whitespace, an optional sign, then leading decimal
digits; `none` is `NaN` (no digit at all).  The hexadecimal `0x` form of
`parseInt` is not modelled. -/
def parseIntJS (s : String) : Option Int :=
  let cs := s.data.dropWhile Char.isWhitespace
  let signed : Int × List Char :=
    match cs with
    | '-' :: rest => (-1, rest)
    | '+' :: rest => (1, rest)
    | _ => (1, cs)
  let digits := signed.2.takeWhile Char.isDigit
  if digits.isEmpty then none
  else some (signed.1 * (decDigitsVal digits : Int))

/-- The numeric state code handed to the lookup helpers:
`sim.simState || 0` with a numeric payload (non-numeric truthy codes are out
of the modelled scope; every claim uses numeric codes). -/
def jsNumOrZero (v : JsValue) : Int :=
  match jsOr v (.num 0) with
  | .num n => n
  | _ => 0

/-- Modelled from the spec: `getStateName` lives in `src/cmp_client.ts`, which
is absent from the sources.  The code→label table is the SIM-state legend the
tool schema states (index.ts: "2:Pre-activation 3:Test 4:Silent 5:Standby
6:Active 7:Shutdown 8:Pause 10:Pre-logout 11:Logout") with the spec's
`"Unknown (<code>)"` fallback for an unrecognized code. -/
def getStateName (code : Int) : String :=
  if code = 2 then "Pre-activation"
  else if code = 3 then "Test"
  else if code = 4 then "Silent"
  else if code = 5 then "Standby"
  else if code = 6 then "Active"
  else if code = 7 then "Shutdown"
  else if code = 8 then "Pause"
  else if code = 10 then "Pre-logout"
  else if code = 11 then "Logout"
  else "Unknown (" ++ toString code ++ ")"

/-- Modelled from the spec: `getProfileStatusName` is in the absent
`src/cmp_client.ts`; the table is the profile-status legend of the tool schema
(index.ts: "1:Not downloaded ... 9:Deleted") with the spec's fallback. -/
def getProfileStatusName (code : Int) : String :=
  if code = 1 then "Not downloaded"
  else if code = 2 then "Downloading"
  else if code = 3 then "Downloaded"
  else if code = 4 then "Enabling"
  else if code = 5 then "Enabled"
  else if code = 6 then "Disabling"
  else if code = 7 then "Disabled"
  else if code = 8 then "Deleting"
  else if code = 9 then "Deleted"
  else "Unknown (" ++ toString code ++ ")"

/-- Modelled from the spec: `getProfileTypeName` is in the absent
`src/cmp_client.ts` and no legend for its table appears in the sources; only
the spec's `"Unknown (<code>)"` fallback for unrecognized codes is modelled.
No claim depends on a recognized profile-type code. -/
def getProfileTypeName (code : JsValue) : String :=
  "Unknown (" ++ jsToString code ++ ")"

/-- The ubiquitous `${v || "N/A"}` template fragment of the renderers. -/
def orNA (v : JsValue) : String :=
  jsToString (jsOr v (.str "N/A"))

/-- One entry of the `query_sim_list` rendering (the `forEach` body,
index.ts lines 109-120). -/
def renderSimEntry (sim : JsValue) (index : Nat) : String :=
  "\n" ++ toString (index + 1) ++ ". 📱 ICCID: " ++ orNA (sim.get "iccid") ++ "\n" ++
  "   ├─ IMSI: " ++ orNA (sim.get "imsi") ++ "\n" ++
  "   ├─ MSISDN: " ++ orNA (sim.get "msisdn") ++ "\n" ++
  "   ├─ Status: " ++ getStateName (jsNumOrZero (sim.get "simState")) ++ "\n" ++
  "   ├─ Card Type: " ++ orNA (sim.get "simType") ++ "\n" ++
  "   ├─ Enterprise: " ++ orNA (sim.get "enterprise") ++ "\n" ++
  "   ├─ Data Plan: " ++ orNA (sim.get "enterpriseDataPlan") ++ "\n" ++
  "   ├─ Activation Time: " ++ orNA (sim.get "activationTime") ++ "\n" ++
  "   ├─ Expiration Time: " ++ orNA (sim.get "expirationTime") ++ "\n" ++
  "   └─ Label: " ++ jsToString (jsOr (sim.get "label") (.str "None")) ++ "\n"

/-- Success-branch rendering of `query_sim_list` (index.ts lines 98-125). -/
def renderSimList (data : JsValue) : String :=
  let simList := jsElems (jsOr (data.get "list") (.arr []))
  "📊 SIM Query Results\n" ++
  ("├─ Current Page: " ++ jsToString (data.get "current") ++ "\n" ++
  "├─ Page Size: " ++ jsToString (data.get "size") ++ "\n" ++
  "├─ Total Pages: " ++ jsToString (data.get "pages") ++ "\n" ++
  "├─ Total Records: " ++ jsToString (data.get "total") ++ "\n\n" ++
  if simList.length > 0 then
    "🔍 Found " ++ toString simList.length ++ " SIM cards:\n" ++
    String.join (simList.enum.map fun p => renderSimEntry p.2 p.1)
  else "❌ No SIM cards found matching the criteria")

/-- The normalization `query_sim_detail` applies to `usedDataOfCurrentPeriod`
before formatting (index.ts lines 185-189):
`sim.usedDataOfCurrentPeriod || 0`, then strings go through
`parseInt(dataUsage) || 0`. -/
def normalizeUsedData (v : JsValue) : JsValue :=
  let dataUsage := jsOr v (.num 0)
  match dataUsage with
  | .str s =>
    match parseIntJS s with
    | some n => .num n
    | none => .num 0
  | x => x

/-- Success-branch rendering of `query_sim_detail` (index.ts lines 160-193).
`fmt` stands for `cmpClient.formatDataUsage`, which lives in the absent
`src/cmp_client.ts`; every theorem below holds for an arbitrary formatter. -/
def renderSimDetail (fmt : JsValue → String) (sim : JsValue) : String :=
  "📱 SIM Card Details\n" ++
  ("├─ SIM ID: " ++ orNA (sim.get "simId") ++ "\n" ++
  "├─ ICCID: " ++ orNA (sim.get "iccid") ++ "\n" ++
  "├─ MSISDN: " ++ orNA (sim.get "msisdn") ++ "\n" ++
  "├─ IMEI: " ++ orNA (sim.get "imei") ++ "\n" ++
  "├─ IMSI: " ++ orNA (sim.get "imsi") ++ "\n" ++
  "├─ Enterprise: " ++ orNA (sim.get "enterprise") ++ "\n" ++
  "├─ Label: " ++ jsToString (jsOr (sim.get "label") (.str "None")) ++ "\n" ++
  "├─ Status: " ++ getStateName (jsNumOrZero (sim.get "simState")) ++ "\n" ++
  "├─ State Change Reason: " ++ orNA (sim.get "simStateChangeReason") ++ "\n" ++
  "├─ Country/Region: " ++ orNA (sim.get "countryRegion") ++ "\n" ++
  "├─ Operator Network: " ++ orNA (sim.get "operatorNetwork") ++ "\n" ++
  "├─ Enterprise Data Plan: " ++ orNA (sim.get "enterpriseDataPlan") ++ "\n" ++
  "├─ Network Type: " ++ orNA (sim.get "networkType") ++ "\n" ++
  "├─ Card Type: " ++ orNA (sim.get "simType") ++ "\n" ++
  "├─ APN: " ++ orNA (sim.get "apn") ++ "\n" ++
  "├─ RAT: " ++ orNA (sim.get "rat") ++ "\n" ++
  "├─ Initial Time: " ++ orNA (sim.get "initialTime") ++ "\n" ++
  "├─ Activation Time: " ++ orNA (sim.get "activationTime") ++ "\n" ++
  "├─ Expiration Time: " ++ orNA (sim.get "expirationTime") ++ "\n" ++
  "├─ Last Session Time: " ++ orNA (sim.get "lastSessionTime") ++ "\n" ++
  "└─ Current Period Data Usage: " ++
    fmt (normalizeUsedData (sim.get "usedDataOfCurrentPeriod")) ++ "\n")

/-- One itemized entry of the `query_sim_usage` rendering (the `forEach`
body, index.ts lines 249-265), including the order-type table
`{1: "Activation Period Plan", 2: "Test Period Plan", 3: "Data Package"}`
with the `Type <code>` fallback (JS property-key lookup coerces the key to
its string form). -/
def renderUsageDetail (detail : JsValue) (index : Nat) : String :=
  let t := detail.get "type"
  let typeName :=
    if jsToString t = "1" then "Activation Period Plan"
    else if jsToString t = "2" then "Test Period Plan"
    else if jsToString t = "3" then "Data Package"
    else "Type " ++ jsToString t
  "\n" ++ toString (index + 1) ++ ". 📦 " ++ jsToString (detail.get "orderName") ++ "\n" ++
  "   ├─ Type: " ++ typeName ++ "\n" ++
  "   ├─ Allowance: " ++ jsToString (detail.get "dataAllowance") ++ " MB\n" ++
  "   ├─ Used: " ++ jsToString (detail.get "dataUsage") ++ " MB\n" ++
  "   └─ Outside Region: " ++ jsToString (detail.get "outsideRegionDataUsage") ++ " MB\n"

/-- Success-branch rendering of `query_sim_usage` (index.ts lines 237-269). -/
def renderSimUsage (usage : JsValue) : String :=
  let details := jsElems (usage.get "dataUsageDetails")
  "📊 SIM Usage Details\n" ++
  ("├─ ICCID: " ++ jsToString (usage.get "iccid") ++ "\n" ++
  "├─ Month: " ++ jsToString (usage.get "month") ++ "\n" ++
  "├─ Total Data Allowance: " ++ jsToString (usage.get "totalDataAllowance") ++ " MB\n" ++
  "├─ Total Data Usage: " ++ jsToString (usage.get "totalDataUsage") ++ " MB\n" ++
  "├─ Remaining Data: " ++ jsToString (usage.get "remainingData") ++ " MB\n" ++
  "├─ Outside Region Usage: " ++ jsToString (usage.get "outsideRegionDataUsage") ++ " MB\n\n" ++
  if (usage.get "dataUsageDetails").truthy = true ∧ details.length > 0 then
    "📋 Usage Details:\n" ++
    String.join (details.enum.map fun p => renderUsageDetail p.2 p.1)
  else "❌ No detailed usage data available")

/-- One entry of the `query_euicc_list` rendering (the `forEach` body,
index.ts lines 337-347). -/
def renderEuiccEntry (euicc : JsValue) (index : Nat) : String :=
  "\n" ++ toString (index + 1) ++ ". 📱 eUICC Device\n" ++
  "   ├─ eID: " ++ orNA (euicc.get "eid") ++ "\n" ++
  "   ├─ ICCID: " ++ orNA (euicc.get "iccid") ++ "\n" ++
  "   ├─ IMEI: " ++ orNA (euicc.get "imei") ++ "\n" ++
  "   ├─ Enterprise: " ++ orNA (euicc.get "enterpriseName") ++ "\n" ++
  "   ├─ Profile Number: " ++ orNA (euicc.get "profileNum") ++ "\n" ++
  "   ├─ Profile Status: " ++ getProfileStatusName (jsNumOrZero (euicc.get "profileStatus")) ++ "\n" ++
  "   ├─ Profile Type: " ++ getProfileTypeName (jsOr (euicc.get "profileType") (.str "0")) ++ "\n" ++
  "   └─ Last Operation: " ++ orNA (euicc.get "lastOperateTime") ++ "\n"

/-- Success-branch rendering of `query_euicc_list` (index.ts lines 324-352);
note the alternate payload shape `response.data.data || response.data`. -/
def renderEuiccList (response : JsValue) : String :=
  let d := jsOr ((response.get "data").get "data") (response.get "data")
  let euiccList := jsElems (jsOr (d.get "list") (.arr []))
  "📡 eUICC List Results\n" ++
  ("├─ Request ID: " ++ orNA (response.get "reqId") ++ "\n" ++
  "├─ Current Page: " ++ orNA (d.get "current") ++ "\n" ++
  "├─ Page Size: " ++ orNA (d.get "size") ++ "\n" ++
  "├─ Total Pages: " ++ orNA (d.get "pages") ++ "\n" ++
  "├─ Total Records: " ++ orNA (d.get "total") ++ "\n\n" ++
  if euiccList.length > 0 then
    "🔍 Found " ++ toString euiccList.length ++ " eUICC devices:\n" ++
    String.join (euiccList.enum.map fun p => renderEuiccEntry p.2 p.1)
  else "❌ No eUICC devices found matching the criteria")

/-- One block of a tool response's `content` array. -/
structure ContentBlock where
  type : String
  text : String
  deriving DecidableEq

/-- The envelope every tool handler returns: `{ content: [...] }`. -/
structure ToolResult where
  content : List ContentBlock
  deriving DecidableEq

/-- A thrown JS value, as the `catch (error)` clauses see it. -/
inductive JsError where
  | err (message : String)
  | other (v : JsValue)

/-- `error instanceof Error ? error.message : "Unknown error"`. -/
def JsError.displayMessage : JsError → String
  | .err m => m
  | .other _ => "Unknown error"

/-- `{ content: [{ type: "text", text: s }] }`, the shape every branch of
every handler constructs. -/
def mkText (s : String) : ToolResult :=
  ⟨[⟨"text", s⟩]⟩

/-- The failure message of every non-success branch:
`` `❌ Query failed: ${response.msg || "Unknown error"}` ``. -/
def queryFailedText (response : JsValue) : String :=
  "❌ Query failed: " ++ jsToString (jsOr (response.get "msg") (.str "Unknown error"))

/-- The lenient success test of `query_sim_usage` and `query_euicc_list`:
`response.code === 200 || (response.data && typeof response.data === "object")`. -/
def lenientSuccess (response : JsValue) : Bool :=
  jsStrictEqNum (response.get "code") 200 ||
    ((response.get "data").truthy && (response.get "data").typeofObject)

/-- The `query_sim_list` handler (index.ts lines 93-146), over the outcome of
the adapter call `cmpClient.querySimList(params)`. -/
def simListHandler (outcome : Except JsError JsValue) : ToolResult :=
  match outcome with
  | .ok response =>
    if jsStrictEqNum (response.get "code") 200 then
      mkText (renderSimList (response.get "data"))
    else
      mkText (queryFailedText response)
  | .error e => mkText ("❌ Failed to query SIM list: " ++ e.displayMessage)

/-- The `query_sim_detail` handler (index.ts lines 155-214), over the outcome
of `cmpClient.querySimDetail(iccid)`; `fmt` is `cmpClient.formatDataUsage`. -/
def simDetailHandler (fmt : JsValue → String) (outcome : Except JsError JsValue) : ToolResult :=
  match outcome with
  | .ok response =>
    if jsStrictEqNum (response.get "code") 200 then
      mkText (renderSimDetail fmt (response.get "data"))
    else
      mkText (queryFailedText response)
  | .error e => mkText ("❌ Failed to query SIM details: " ++ e.displayMessage)

/-- The `query_sim_usage` handler (index.ts lines 226-292), over the outcome
of `cmpClient.querySimMonthData({iccid, month})`. -/
def simUsageHandler (outcome : Except JsError JsValue) : ToolResult :=
  match outcome with
  | .ok response =>
    if lenientSuccess response then
      mkText (renderSimUsage (response.get "data"))
    else
      mkText (queryFailedText response)
  | .error e => mkText ("❌ Failed to query SIM usage: " ++ e.displayMessage)

/-- The `query_euicc_list` handler (index.ts lines 316-373), over the outcome
of `cmpClient.queryEuiccPage(params)`. -/
def euiccListHandler (outcome : Except JsError JsValue) : ToolResult :=
  match outcome with
  | .ok response =>
    if lenientSuccess response then
      mkText (renderEuiccList response)
    else
      mkText (queryFailedText response)
  | .error e => mkText ("❌ Failed to query eUICC list: " ++ e.displayMessage)

/-- The API client adapter's construction-time configuration
(`new CMPClient(key, secret, endpoint)`). -/
structure CMPClient where
  apiKey : String
  apiSecret : String
  endpoint : String
  deriving DecidableEq

/-- One observable step of `MyMCP.init`. -/
inductive InitEvent where
  | clientConstructed (c : CMPClient)
  | toolRegistered (name : String)
  | threw (message : String)
  deriving DecidableEq

/-- The fallback endpoint of index.ts line 37. -/
def defaultEndpoint : String := "https://cmp.acceleronix.io/gateway/openapi"

/-- The startup error of index.ts lines 42-44. -/
def missingCredsMsg : String :=
  "Missing required environment variables: CMP_API_KEY and CMP_API_SECRET must be set in Cloudflare Workers."

/-- The four tool names, in registration order (index.ts lines 62-374). -/
def toolNames : List String :=
  ["query_sim_list", "query_sim_detail", "query_sim_usage", "query_euicc_list"]

/-- The registry built by `MyMCP.init`: tool name to handler, in registration
order; `fmt` is the adapter's `formatDataUsage`, used only by
`query_sim_detail`. -/
def registeredTools (fmt : JsValue → String) :
    List (String × (Except JsError JsValue → ToolResult)) :=
  [("query_sim_list", simListHandler),
   ("query_sim_detail", simDetailHandler fmt),
   ("query_sim_usage", simUsageHandler),
   ("query_euicc_list", euiccListHandler)]

/-- The observable event sequence of `MyMCP.init` (index.ts lines 25-375)
over the environment bindings `CMP_API_KEY`, `CMP_API_SECRET`,
`CMP_API_ENDPOINT` (`none` = unset; JS treats unset and the empty string
alike as falsy): validate credentials, throw if either is missing, otherwise
construct the client once and register the four tools. -/
def initTrace (envKey envSecret envEndpoint : Option String) : List InitEvent :=
  let key := envKey.getD ""
  let secret := envSecret.getD ""
  let endpoint := if (envEndpoint.getD "") = "" then defaultEndpoint else envEndpoint.getD ""
  if key = "" || secret = "" then
    [.threw missingCredsMsg]
  else
    .clientConstructed ⟨key, secret, endpoint⟩ :: toolNames.map .toolRegistered

/-- An authorization request as recovered by the grant store's
`parseAuthRequest` / `parseApproveFormBody` (the fields the app handlers
read: `redirect_uri` and `scope`; the rest rides along opaquely inside
`request`). -/
structure AuthRequest where
  clientId : String
  redirect_uri : String
  scope : List String
  state : String
  deriving DecidableEq

/-- An HTTP response of the Hono app: `c.html(body, status)` (status 200
when omitted) or `c.redirect(location, status)`. -/
inductive HttpResponse where
  | html (body : String) (status : Nat)
  | redirect (location : String) (status : Nat)
  deriving DecidableEq

/-- Modelled from the spec: `layout` lives in the absent `src/utils.ts`; the
spec puts page markup out of scope as a pure formatting function, so it is a
plain wrapper of title and content. -/
def layout (content title : String) : String :=
  "<html><head><title>" ++ title ++ "</title></head><body>" ++ content ++ "</body></html>"

/-- Modelled from the spec: the rejection status page renderer of the absent
`src/utils.ts` (a pure formatting function over the back link). -/
def renderAuthorizationRejectedContent (backLink : String) : String :=
  "Authorization rejected. <a href=\x22" ++ backLink ++ "\x22>Go back</a>"

/-- Modelled from the spec: the approval status page renderer of the absent
`src/utils.ts` (a pure formatting function over the redirect target). -/
def renderAuthorizationApprovedContent (redirectTo : String) : String :=
  "Authorization approved. <a href=\x22" ++ redirectTo ++ "\x22>Continue</a>"

/-- The fixed offered-scope catalog of `GET /authorize`
(part_000 lines 38-45). -/
def oauthScopes : List (String × String) :=
  [("read_profile", "Read your basic profile information"),
   ("read_data", "Access your stored data"),
   ("write_data", "Create and modify your data")]

/-- Modelled from the spec: the logged-in consent screen renderer
(scope-approval-only form) of the absent `src/utils.ts`. -/
def renderLoggedInAuthorizeScreen (scopes : List (String × String)) (req : AuthRequest) : String :=
  "<form action=\x22/approve\x22 method=\x22post\x22 data-client=\x22" ++ req.clientId ++ "\x22>" ++
    String.join (scopes.map fun p => "<li>" ++ p.1 ++ ": " ++ p.2 ++ "</li>") ++
  "<button name=\x22action\x22 value=\x22approve\x22>Approve</button></form>"

/-- Modelled from the spec: the logged-out consent screen renderer (combined
login + approval form) of the absent `src/utils.ts`. -/
def renderLoggedOutAuthorizeScreen (scopes : List (String × String)) (req : AuthRequest) : String :=
  "<form action=\x22/approve\x22 method=\x22post\x22 data-client=\x22" ++ req.clientId ++ "\x22>" ++
    "<input name=\x22email\x22><input name=\x22password\x22>" ++
    String.join (scopes.map fun p => "<li>" ++ p.1 ++ ": " ++ p.2 ++ "</li>") ++
  "<button name=\x22action\x22 value=\x22login_approve\x22>Log in and Approve</button></form>"

/-- Which consent screen variant a `GET /authorize` renders. -/
inductive ScreenVariant where
  | LoggedIn
  | LoggedOut
  deriving DecidableEq

/-- The hard-coded login flag of `GET /authorize` (part_000 line 34). -/
def isLoggedIn : Bool := true

/-- The `GET /authorize` handler (part_000 lines 30-60), parameterized by the
login flag it branches on; the pair records which screen variant the branch
selected alongside the HTTP response it produced. -/
def authorizeHandler (flag : Bool) (oauthReqInfo : AuthRequest) :
    ScreenVariant × HttpResponse :=
  if flag then
    (.LoggedIn,
     .html (layout (renderLoggedInAuthorizeScreen oauthScopes oauthReqInfo)
       "MCP Remote Auth Demo - Authorization") 200)
  else
    (.LoggedOut,
     .html (layout (renderLoggedOutAuthorizeScreen oauthScopes oauthReqInfo)
       "MCP Remote Auth Demo - Authorization") 200)

/-- The output of `parseApproveFormBody` on the submitted form: the action,
the recovered authorization request (if any), and the optional credentials
(`none` = field absent). -/
structure ApproveForm where
  action : String
  oauthReqInfo : Option AuthRequest
  email : Option String
  password : Option String

/-- The argument record of the single `completeAuthorization` call
(part_000 lines 110-120). -/
structure CompleteArgs where
  request : AuthRequest
  userId : String
  metadataLabel : String
  scope : List String
  propsUserEmail : String
  deriving DecidableEq

/-- The programmatic-client heuristic used by both the reject and the approve
paths (part_000 lines 79 and 125):
`redirectUri && (redirectUri.includes('claude.ai') || redirectUri.includes('mcp'))`. -/
def isProgrammaticClient (redirectUri : String) : Bool :=
  redirectUri != "" &&
    (jsIncludes redirectUri "claude.ai" || jsIncludes redirectUri "mcp")

/-- The constant-false demo credential check inside the `login_approve`
branch (`if (false) ...`, part_000 line 98): no email/password pair is ever
rejected. -/
def loginApproveRejects : Bool := false

/-- The argument object built for `completeAuthorization`
(part_000 lines 110-120): `userId: email || "user@example.com"`,
`metadata: {label: "CMP MCP User"}`, `scope: oauthReqInfo.scope`,
`props: {userEmail: email || "user@example.com"}`; `email` is `none` when the
form field is absent (absent and empty are both JS-falsy). -/
def completionArgs (oauthReqInfo : AuthRequest) (email : Option String) : CompleteArgs :=
  let e := email.getD ""
  { request := oauthReqInfo
    userId := if e = "" then "user@example.com" else e
    metadataLabel := "CMP MCP User"
    scope := oauthReqInfo.scope
    propsUserEmail := if e = "" then "user@example.com" else e }

/-- The `POST /approve` handler (part_000 lines 65-135), with the external
grant store's `completeAuthorization` abstracted as `store` (returning the
upstream `redirectTo`).  The second component lists the arguments of every
`completeAuthorization` call the run performed, in order. -/
def approveHandler (store : CompleteArgs → String) (form : ApproveForm) :
    HttpResponse × List CompleteArgs :=
  match form.oauthReqInfo with
  | none => (.html "INVALID LOGIN" 401, [])
  | some oauthReqInfo =>
    if form.action = "reject" then
      let redirectUri := oauthReqInfo.redirect_uri
      let errorRedirect :=
        redirectUri ++ "?error=access_denied&error_description=User+denied+authorization"
      if isProgrammaticClient redirectUri then
        (.redirect errorRedirect 302, [])
      else
        (.html (layout (renderAuthorizationRejectedContent "/")
          "CMP MCP Server - Authorization Status") 200, [])
    else if form.action = "login_approve" && loginApproveRejects then
      (.html (layout (renderAuthorizationRejectedContent "/")
        "CMP MCP Server - Authorization Status") 200, [])
    else
      let args := completionArgs oauthReqInfo form.email
      let redirectTo := store args
      if isProgrammaticClient oauthReqInfo.redirect_uri then
        (.redirect redirectTo 302, [args])
      else
        (.html (layout (renderAuthorizationApprovedContent redirectTo)
          "CMP MCP Server - Authorization Status") 200, [args])

/-! ## Helper lemmas -/

theorem ne_of_head {a b : String} (h : a.data.head? ≠ b.data.head?) : a ≠ b :=
  fun e => h (by rw [e])

theorem renderSimList_head (d : JsValue) : (renderSimList d).data.head? = some '📊' := by
  unfold renderSimList
  rw [String.data_append, List.head?_append_of_ne_nil _ (by decide)]
  decide

theorem renderSimDetail_head (fmt : JsValue → String) (d : JsValue) :
    (renderSimDetail fmt d).data.head? = some '📱' := by
  unfold renderSimDetail
  rw [String.data_append, List.head?_append_of_ne_nil _ (by decide)]
  decide

theorem renderSimUsage_head (d : JsValue) : (renderSimUsage d).data.head? = some '📊' := by
  unfold renderSimUsage
  rw [String.data_append, List.head?_append_of_ne_nil _ (by decide)]
  decide

theorem renderEuiccList_head (r : JsValue) : (renderEuiccList r).data.head? = some '📡' := by
  unfold renderEuiccList
  rw [String.data_append, List.head?_append_of_ne_nil _ (by decide)]
  decide

theorem failedText_head (m : String) :
    (("❌ Query failed: " : String) ++ m).data.head? = some '❌' := by
  rw [String.data_append, List.head?_append_of_ne_nil _ (by decide)]
  decide

theorem renderSimList_ne_failed (d : JsValue) (m : String) :
    renderSimList d ≠ "❌ Query failed: " ++ m := by
  apply ne_of_head
  rw [renderSimList_head, failedText_head]
  decide

theorem renderSimDetail_ne_failed (fmt : JsValue → String) (d : JsValue) (m : String) :
    renderSimDetail fmt d ≠ "❌ Query failed: " ++ m := by
  apply ne_of_head
  rw [renderSimDetail_head, failedText_head]
  decide

theorem renderSimUsage_ne_failed (d : JsValue) (m : String) :
    renderSimUsage d ≠ "❌ Query failed: " ++ m := by
  apply ne_of_head
  rw [renderSimUsage_head, failedText_head]
  decide

theorem renderEuiccList_ne_failed (r : JsValue) (m : String) :
    renderEuiccList r ≠ "❌ Query failed: " ++ m := by
  apply ne_of_head
  rw [renderEuiccList_head, failedText_head]
  decide

theorem mkText_inj {a b : String} (h : mkText a = mkText b) : a = b := by
  simpa [mkText] using h

theorem lenientSuccess_iff (r : JsValue) :
    lenientSuccess r = true ↔
      (jsStrictEqNum (r.get "code") 200 = true ∨
        ((r.get "data").truthy = true ∧ (r.get "data").typeofObject = true)) := by
  simp [lenientSuccess]

theorem simList_policy (r : JsValue) :
    (simListHandler (.ok r) = mkText (renderSimList (r.get "data")) ↔
      jsStrictEqNum (r.get "code") 200 = true)
    ∧ (¬ jsStrictEqNum (r.get "code") 200 = true →
        ∃ m, simListHandler (.ok r) = mkText ("❌ Query failed: " ++ m)) := by
  by_cases h : jsStrictEqNum (r.get "code") 200 = true
  · exact ⟨by simp [simListHandler, h], fun hc => absurd h hc⟩
  · constructor
    · constructor
      · intro he
        exfalso
        have h1 : queryFailedText r = renderSimList (r.get "data") := by
          apply mkText_inj
          simpa [simListHandler, h] using he
        have h2 : renderSimList (r.get "data") =
            "❌ Query failed: " ++ jsToString (jsOr (r.get "msg") (.str "Unknown error")) := by
          simpa [queryFailedText] using h1.symm
        exact renderSimList_ne_failed _ _ h2
      · intro hc
        exact absurd hc h
    · intro _
      exact ⟨jsToString (jsOr (r.get "msg") (.str "Unknown error")),
        by simp [simListHandler, h, queryFailedText]⟩

theorem simDetail_policy (fmt : JsValue → String) (r : JsValue) :
    (simDetailHandler fmt (.ok r) = mkText (renderSimDetail fmt (r.get "data")) ↔
      jsStrictEqNum (r.get "code") 200 = true)
    ∧ (¬ jsStrictEqNum (r.get "code") 200 = true →
        ∃ m, simDetailHandler fmt (.ok r) = mkText ("❌ Query failed: " ++ m)) := by
  by_cases h : jsStrictEqNum (r.get "code") 200 = true
  · exact ⟨by simp [simDetailHandler, h], fun hc => absurd h hc⟩
  · constructor
    · constructor
      · intro he
        exfalso
        have h1 : queryFailedText r = renderSimDetail fmt (r.get "data") := by
          apply mkText_inj
          simpa [simDetailHandler, h] using he
        have h2 : renderSimDetail fmt (r.get "data") =
            "❌ Query failed: " ++ jsToString (jsOr (r.get "msg") (.str "Unknown error")) := by
          simpa [queryFailedText] using h1.symm
        exact renderSimDetail_ne_failed _ _ _ h2
      · intro hc
        exact absurd hc h
    · intro _
      exact ⟨jsToString (jsOr (r.get "msg") (.str "Unknown error")),
        by simp [simDetailHandler, h, queryFailedText]⟩

theorem simUsage_policy (r : JsValue) :
    (simUsageHandler (.ok r) = mkText (renderSimUsage (r.get "data")) ↔
      (jsStrictEqNum (r.get "code") 200 = true ∨
        ((r.get "data").truthy = true ∧ (r.get "data").typeofObject = true)))
    ∧ (¬ (jsStrictEqNum (r.get "code") 200 = true ∨
          ((r.get "data").truthy = true ∧ (r.get "data").typeofObject = true)) →
        ∃ m, simUsageHandler (.ok r) = mkText ("❌ Query failed: " ++ m)) := by
  rw [← lenientSuccess_iff]
  by_cases h : lenientSuccess r = true
  · exact ⟨by simp [simUsageHandler, h], fun hc => absurd h hc⟩
  · constructor
    · constructor
      · intro he
        exfalso
        have h1 : queryFailedText r = renderSimUsage (r.get "data") := by
          apply mkText_inj
          simpa [simUsageHandler, h] using he
        have h2 : renderSimUsage (r.get "data") =
            "❌ Query failed: " ++ jsToString (jsOr (r.get "msg") (.str "Unknown error")) := by
          simpa [queryFailedText] using h1.symm
        exact renderSimUsage_ne_failed _ _ h2
      · intro hc
        exact absurd hc h
    · intro _
      exact ⟨jsToString (jsOr (r.get "msg") (.str "Unknown error")),
        by simp [simUsageHandler, h, queryFailedText]⟩

theorem euiccList_policy (r : JsValue) :
    (euiccListHandler (.ok r) = mkText (renderEuiccList r) ↔
      (jsStrictEqNum (r.get "code") 200 = true ∨
        ((r.get "data").truthy = true ∧ (r.get "data").typeofObject = true)))
    ∧ (¬ (jsStrictEqNum (r.get "code") 200 = true ∨
          ((r.get "data").truthy = true ∧ (r.get "data").typeofObject = true)) →
        ∃ m, euiccListHandler (.ok r) = mkText ("❌ Query failed: " ++ m)) := by
  rw [← lenientSuccess_iff]
  by_cases h : lenientSuccess r = true
  · exact ⟨by simp [euiccListHandler, h], fun hc => absurd h hc⟩
  · constructor
    · constructor
      · intro he
        exfalso
        have h1 : queryFailedText r = renderEuiccList r := by
          apply mkText_inj
          simpa [euiccListHandler, h] using he
        have h2 : renderEuiccList r =
            "❌ Query failed: " ++ jsToString (jsOr (r.get "msg") (.str "Unknown error")) := by
          simpa [queryFailedText] using h1.symm
        exact renderEuiccList_ne_failed _ _ h2
      · intro hc
        exact absurd hc h
    · intro _
      exact ⟨jsToString (jsOr (r.get "msg") (.str "Unknown error")),
        by simp [euiccListHandler, h, queryFailedText]⟩

/-! ## Claims -/

/-- C1: Per-tool success classification follows the lenient status-code
policy.  For every adapter response `r`, `query_sim_list` and
`query_sim_detail` take the success branch (render the success payload) iff
`r.code === 200`; `query_sim_usage` and `query_euicc_list` take it iff
`r.code === 200` or a truthy object-typed `r.data` is present; in every other
case the tool returns the `❌ Query failed: ...` failure message. -/
theorem c1_per_tool_success_classification (fmt : JsValue → String) (r : JsValue) :
    ((simListHandler (.ok r) = mkText (renderSimList (r.get "data")) ↔
        jsStrictEqNum (r.get "code") 200 = true)
      ∧ (¬ jsStrictEqNum (r.get "code") 200 = true →
          ∃ m, simListHandler (.ok r) = mkText ("❌ Query failed: " ++ m)))
    ∧ ((simDetailHandler fmt (.ok r) = mkText (renderSimDetail fmt (r.get "data")) ↔
        jsStrictEqNum (r.get "code") 200 = true)
      ∧ (¬ jsStrictEqNum (r.get "code") 200 = true →
          ∃ m, simDetailHandler fmt (.ok r) = mkText ("❌ Query failed: " ++ m)))
    ∧ ((simUsageHandler (.ok r) = mkText (renderSimUsage (r.get "data")) ↔
        (jsStrictEqNum (r.get "code") 200 = true ∨
          ((r.get "data").truthy = true ∧ (r.get "data").typeofObject = true)))
      ∧ (¬ (jsStrictEqNum (r.get "code") 200 = true ∨
            ((r.get "data").truthy = true ∧ (r.get "data").typeofObject = true)) →
          ∃ m, simUsageHandler (.ok r) = mkText ("❌ Query failed: " ++ m)))
    ∧ ((euiccListHandler (.ok r) = mkText (renderEuiccList r) ↔
        (jsStrictEqNum (r.get "code") 200 = true ∨
          ((r.get "data").truthy = true ∧ (r.get "data").typeofObject = true)))
      ∧ (¬ (jsStrictEqNum (r.get "code") 200 = true ∨
            ((r.get "data").truthy = true ∧ (r.get "data").typeofObject = true)) →
          ∃ m, euiccListHandler (.ok r) = mkText ("❌ Query failed: " ++ m))) :=
  ⟨simList_policy r, simDetail_policy fmt r, simUsage_policy r, euiccList_policy r⟩

/-- C1 witness: on the concrete response `{code: 500, msg: "boom"}` the
strict tools fail, and on `{code: 500, data: {}}` the lenient tools still
succeed on the object-typed data. -/
theorem c1_per_tool_success_classification_witness :
    (∃ m, simListHandler (.ok (JsValue.obj [("code", .num 500), ("msg", .str "boom")])) =
      mkText ("❌ Query failed: " ++ m))
    ∧ (simUsageHandler (.ok (JsValue.obj [("code", .num 500), ("data", .obj [])])) =
        mkText (renderSimUsage ((JsValue.obj [("code", .num 500), ("data", .obj [])]).get "data"))) :=
  ⟨(c1_per_tool_success_classification (fun _ => "") _).1.2 (by decide),
   ((c1_per_tool_success_classification (fun _ => "") _).2.2.1.1).mpr (by decide)⟩

theorem hasMarker_ne_empty {u : String}
    (h : (jsIncludes u "claude.ai" || jsIncludes u "mcp") = true) : u ≠ "" := by
  intro h0
  subst h0
  exact absurd h (by decide)

/-- C2: rejecting a recovered authorization request whose redirect URI
contains a recognized automated-client marker (`claude.ai` or `mcp`) always
yields the 302 redirect carrying `error=access_denied`; rejecting one whose
redirect URI contains no marker always yields the HTML rejection status
page — never the reverse. -/
theorem c2_reject_branching (store : CompleteArgs → String) (form : ApproveForm)
    (req : AuthRequest) (hreq : form.oauthReqInfo = some req)
    (hact : form.action = "reject") :
    ((jsIncludes req.redirect_uri "claude.ai" || jsIncludes req.redirect_uri "mcp") = true →
      approveHandler store form =
        (.redirect (req.redirect_uri ++
          "?error=access_denied&error_description=User+denied+authorization") 302, []))
    ∧ ((jsIncludes req.redirect_uri "claude.ai" || jsIncludes req.redirect_uri "mcp") = false →
      approveHandler store form =
        (.html (layout (renderAuthorizationRejectedContent "/")
          "CMP MCP Server - Authorization Status") 200, [])) := by
  constructor
  · intro hm
    have hne : req.redirect_uri ≠ "" := hasMarker_ne_empty hm
    have hprog : isProgrammaticClient req.redirect_uri = true := by
      simp [isProgrammaticClient, hne, hm, bne_iff_ne]
    simp [approveHandler, hreq, hact, hprog]
  · intro hm
    have hprog : isProgrammaticClient req.redirect_uri = false := by
      simp [isProgrammaticClient, hm]
    simp [approveHandler, hreq, hact, hprog]

/-- C2 witness: rejecting with the Claude callback URI yields the
`error=access_denied` redirect. -/
theorem c2_reject_branching_witness :
    ((jsIncludes "https://claude.ai/api/mcp/auth_callback" "claude.ai" ||
      jsIncludes "https://claude.ai/api/mcp/auth_callback" "mcp") = true) ∧
    approveHandler (fun _ => "x")
      ⟨"reject", some ⟨"cid", "https://claude.ai/api/mcp/auth_callback", ["read_profile"], "st"⟩,
        none, none⟩ =
      (.redirect ("https://claude.ai/api/mcp/auth_callback" ++
        "?error=access_denied&error_description=User+denied+authorization") 302, []) :=
  ⟨by decide,
   (c2_reject_branching (fun _ => "x") _ _ rfl rfl).1 (by decide)⟩

/-- C3: a `POST /approve` whose form yields no recoverable
`AuthorizationRequest` returns the 401 `INVALID LOGIN` response and never
calls `completeAuthorization` (the call list is empty, for every store and
every other form field). -/
theorem c3_missing_request_unauthorized (store : CompleteArgs → String)
    (action : String) (email password : Option String) :
    approveHandler store ⟨action, none, email, password⟩ =
      (.html "INVALID LOGIN" 401, []) := rfl

/-- C6: approving (or `login_approve`-ing) a recovered request calls
`completeAuthorization` exactly once with
`{request, userId, metadata, scope, props}` (`completionArgs`); a
marker-bearing redirect URI gets a 302 to the returned `redirectTo`
verbatim with no HTML body, any other redirect URI gets the HTML approval
status page. -/
theorem c6_approve_completion (store : CompleteArgs → String) (form : ApproveForm)
    (req : AuthRequest) (hreq : form.oauthReqInfo = some req)
    (hact : form.action = "approve" ∨ form.action = "login_approve") :
    (approveHandler store form).2 = [completionArgs req form.email]
    ∧ ((jsIncludes req.redirect_uri "claude.ai" || jsIncludes req.redirect_uri "mcp") = true →
        approveHandler store form =
          (.redirect (store (completionArgs req form.email)) 302,
            [completionArgs req form.email]))
    ∧ (isProgrammaticClient req.redirect_uri = false →
        approveHandler store form =
          (.html (layout (renderAuthorizationApprovedContent (store (completionArgs req form.email)))
            "CMP MCP Server - Authorization Status") 200,
            [completionArgs req form.email])) := by
  have hnr : ¬ form.action = "reject" := by
    rcases hact with h | h <;> rw [h] <;> decide
  have hla : (decide (form.action = "login_approve") && loginApproveRejects) = false := by
    simp [loginApproveRejects]
  refine ⟨?_, ?_, ?_⟩
  · by_cases hprog : isProgrammaticClient req.redirect_uri = true <;>
      simp [approveHandler, hreq, hnr, hla, hprog]
  · intro hm
    have hne : req.redirect_uri ≠ "" := hasMarker_ne_empty hm
    have hprog : isProgrammaticClient req.redirect_uri = true := by
      simp [isProgrammaticClient, hne, hm, bne_iff_ne]
    simp [approveHandler, hreq, hnr, hla, hprog]
  · intro hprog
    simp [approveHandler, hreq, hnr, hla, hprog]

/-- C6 witness: approving with identity `a@b.com` and the Claude callback
URI 302-redirects verbatim to the store's `redirectTo`. -/
theorem c6_approve_completion_witness :
    approveHandler (fun _ => "https://claude.ai/api/mcp/auth_callback?code=abc")
      ⟨"approve", some ⟨"cid", "https://claude.ai/api/mcp/auth_callback", ["read_data"], "st"⟩,
        some "a@b.com", some "pw"⟩ =
      (.redirect "https://claude.ai/api/mcp/auth_callback?code=abc" 302,
        [completionArgs ⟨"cid", "https://claude.ai/api/mcp/auth_callback", ["read_data"], "st"⟩
          (some "a@b.com")]) :=
  (c6_approve_completion (fun _ => "https://claude.ai/api/mcp/auth_callback?code=abc")
    _ _ rfl (Or.inl rfl)).2.1 (by decide)

/-- C10: the demo `login_approve` credential check rejects no input —
authorization completes for every email/password, including absent or empty
ones (the constant-false check of part_000 line 98) — and an absent or empty
email defaults both the grant's `userId` and `props.userEmail` to
`user@example.com`. -/
theorem c10_demo_credentials_accept_all (store : CompleteArgs → String)
    (req : AuthRequest) (email password : Option String) (action : String)
    (hact : action = "approve" ∨ action = "login_approve") :
    loginApproveRejects = false
    ∧ (approveHandler store ⟨action, some req, email, password⟩).2 =
        [completionArgs req email]
    ∧ ((email = none ∨ email = some "") →
        (completionArgs req email).userId = "user@example.com"
        ∧ (completionArgs req email).propsUserEmail = "user@example.com") := by
  refine ⟨rfl, (c6_approve_completion store _ req rfl hact).1, ?_⟩
  rintro (rfl | rfl) <;> exact ⟨rfl, rfl⟩

/-- C10 witness: `login_approve` with empty email and absent password
completes with the default identity. -/
theorem c10_demo_credentials_accept_all_witness :
    (approveHandler (fun a => a.userId)
      ⟨"login_approve", some ⟨"cid", "https://h.example/cb", [], "st"⟩, some "", none⟩).2 =
        [completionArgs ⟨"cid", "https://h.example/cb", [], "st"⟩ (some "")]
    ∧ (completionArgs ⟨"cid", "https://h.example/cb", [], "st"⟩ (some "")).userId =
        "user@example.com" :=
  ⟨(c10_demo_credentials_accept_all (fun a => a.userId) _ (some "") none "login_approve"
      (Or.inr rfl)).2.1,
   ((c10_demo_credentials_accept_all (fun a => a.userId) ⟨"cid", "https://h.example/cb", [], "st"⟩
      (some "") none "login_approve" (Or.inr rfl)).2.2 (Or.inr rfl)).1⟩

/-- C7: `GET /authorize` selects the `LoggedIn` screen variant iff the
authenticated flag is true and the `LoggedOut` variant iff it is false —
exhaustively for both booleans — and the HTML response renders the
corresponding screen over the fixed scope catalog. -/
theorem c7_screen_selection (flag : Bool) (req : AuthRequest) :
    ((authorizeHandler flag req).1 = ScreenVariant.LoggedIn ↔ flag = true)
    ∧ ((authorizeHandler flag req).1 = ScreenVariant.LoggedOut ↔ flag = false)
    ∧ (flag = true →
        (authorizeHandler flag req).2 =
          .html (layout (renderLoggedInAuthorizeScreen oauthScopes req)
            "MCP Remote Auth Demo - Authorization") 200)
    ∧ (flag = false →
        (authorizeHandler flag req).2 =
          .html (layout (renderLoggedOutAuthorizeScreen oauthScopes req)
            "MCP Remote Auth Demo - Authorization") 200) := by
  cases flag <;> simp [authorizeHandler]

/-- C7 witness: with the flag hard-coded true (as in the source), the
logged-in screen is selected. -/
theorem c7_screen_selection_witness :
    (authorizeHandler isLoggedIn ⟨"cid", "https://h.example/cb", [], "st"⟩).1 =
      ScreenVariant.LoggedIn ∧
    (authorizeHandler isLoggedIn ⟨"cid", "https://h.example/cb", [], "st"⟩).2 =
      .html (layout (renderLoggedInAuthorizeScreen oauthScopes
        ⟨"cid", "https://h.example/cb", [], "st"⟩)
        "MCP Remote Auth Demo - Authorization") 200 :=
  ⟨(c7_screen_selection isLoggedIn _).1.mpr rfl,
   (c7_screen_selection isLoggedIn _).2.2.1 rfl⟩

/-- C5: session init fails fast on missing credentials: when the API key or
secret is unset (or empty, JS-falsy), `init` throws before constructing the
adapter and before registering any tool; when both are present, the adapter
is constructed exactly once and all four tools are registered. -/
theorem c5_init_fail_fast (envKey envSecret envEndpoint : Option String) :
    ((envKey.getD "" = "" ∨ envSecret.getD "" = "") →
      initTrace envKey envSecret envEndpoint = [.threw missingCredsMsg]
      ∧ (∀ c, InitEvent.clientConstructed c ∉ initTrace envKey envSecret envEndpoint)
      ∧ (∀ n, InitEvent.toolRegistered n ∉ initTrace envKey envSecret envEndpoint))
    ∧ (envKey.getD "" ≠ "" → envSecret.getD "" ≠ "" →
      initTrace envKey envSecret envEndpoint =
        .clientConstructed ⟨envKey.getD "", envSecret.getD "",
          if envEndpoint.getD "" = "" then defaultEndpoint else envEndpoint.getD ""⟩ ::
        toolNames.map .toolRegistered
      ∧ (initTrace envKey envSecret envEndpoint).countP
          (fun ev => match ev with | .clientConstructed _ => true | _ => false) = 1
      ∧ (toolNames.map InitEvent.toolRegistered).length = 4) := by
  constructor
  · intro h
    have hc : (envKey.getD "" = "" || envSecret.getD "" = "") = true := by
      rcases h with h | h <;> simp [h]
    refine ⟨?_, ?_, ?_⟩ <;> simp [initTrace] <;> rcases h with h | h <;> simp [h]
  · intro hk hs
    refine ⟨?_, ?_, rfl⟩
    · simp [initTrace, hk, hs]
    · simp [initTrace, hk, hs, toolNames, List.countP, List.countP.go]

/-- C5 witness: a missing secret aborts with no construction or
registration; full credentials register the four tools behind one client. -/
theorem c5_init_fail_fast_witness :
    (initTrace (some "k") none (some "https://e.example") = [.threw missingCredsMsg])
    ∧ initTrace (some "k") (some "s") none =
        .clientConstructed ⟨"k", "s", defaultEndpoint⟩ :: toolNames.map .toolRegistered :=
  ⟨((c5_init_fail_fast (some "k") none (some "https://e.example")).1 (Or.inr rfl)).1,
   ((c5_init_fail_fast (some "k") (some "s") none).2 (by decide) (by decide)).1⟩

/-- C4: every invocation of any of the four registered tools yields exactly
one content envelope with exactly one text block — for every adapter
outcome, including a thrown error, which is wrapped as a readable failure
message rather than propagated. -/
theorem c4_uniform_envelope (fmt : JsValue → String) (name : String)
    (handler : Except JsError JsValue → ToolResult)
    (hmem : (name, handler) ∈ registeredTools fmt)
    (outcome : Except JsError JsValue) :
    ∃ t, (handler outcome).content = [⟨"text", t⟩] := by
  simp only [registeredTools, List.mem_cons, List.not_mem_nil, or_false,
    Prod.mk.injEq] at hmem
  rcases hmem with ⟨-, rfl⟩ | ⟨-, rfl⟩ | ⟨-, rfl⟩ | ⟨-, rfl⟩ <;>
    cases outcome <;>
      simp only [simListHandler, simDetailHandler, simUsageHandler, euiccListHandler] <;>
      first
      | exact ⟨_, rfl⟩
      | (split <;> exact ⟨_, rfl⟩)

/-- C4 witness: a registered tool fed a thrown network error still returns a
single text block. -/
theorem c4_uniform_envelope_witness :
    (("query_sim_usage", simUsageHandler) ∈ registeredTools (fun _ => "")) ∧
    ∃ t, (simUsageHandler (.error (.err "network down"))).content = [⟨"text", t⟩] :=
  ⟨by simp [registeredTools],
   c4_uniform_envelope (fun _ => "") "query_sim_usage" simUsageHandler
     (by simp [registeredTools]) (.error (.err "network down"))⟩

/-- C8: `query_sim_detail` formats the data-usage field identically for
string and integer inputs: the normalization parses the string `"2048"` to
the number `2048` before `formatDataUsage` (`fmt`) is applied, so the whole
rendered response coincides — for every formatter and every set of remaining
record fields. -/
theorem c8_string_int_usage_agree (fmt : JsValue → String)
    (rest : List (String × JsValue)) :
    normalizeUsedData (JsValue.str "2048") = JsValue.num 2048
    ∧ normalizeUsedData (JsValue.num 2048) = JsValue.num 2048
    ∧ simDetailHandler fmt (.ok (.obj [("code", .num 200),
        ("data", .obj (("usedDataOfCurrentPeriod", .str "2048") :: rest))])) =
      simDetailHandler fmt (.ok (.obj [("code", .num 200),
        ("data", .obj (("usedDataOfCurrentPeriod", .num 2048) :: rest))])) := by
  refine ⟨rfl, rfl, ?_⟩
  have h : renderSimDetail fmt (.obj (("usedDataOfCurrentPeriod", .str "2048") :: rest)) =
      renderSimDetail fmt (.obj (("usedDataOfCurrentPeriod", .num 2048) :: rest)) := by
    simp only [renderSimDetail, JsValue.get, List.lookup, String.reduceBEq, Option.getD_some]
    rw [show normalizeUsedData (JsValue.str "2048") = JsValue.num 2048 from rfl,
      show normalizeUsedData (JsValue.num 2048) = JsValue.num 2048 from rfl]
  simp only [simDetailHandler, JsValue.get, List.lookup, String.reduceBEq, Option.getD_some,
    show jsStrictEqNum (JsValue.num 200) 200 = true from rfl, if_true, h]

/-- C9: state-code translation uses the fixed code→label table: code 6
renders as `Active` and the unmapped code 99 as `Unknown (99)` — both at the
lookup helper itself, at the `Status` expression of an arbitrary device
record, and in two fully rendered concrete records. -/
theorem c9_state_code_translation :
    getStateName 6 = "Active"
    ∧ getStateName 99 = "Unknown (99)"
    ∧ (∀ rest : List (String × JsValue),
        getStateName (jsNumOrZero ((JsValue.obj (("simState", .num 6) :: rest)).get "simState")) =
          "Active")
    ∧ (∀ rest : List (String × JsValue),
        getStateName (jsNumOrZero ((JsValue.obj (("simState", .num 99) :: rest)).get "simState")) =
          "Unknown (99)")
    ∧ renderSimEntry (.obj [("iccid", .str "89440000000000000001"), ("simState", .num 99)]) 0 =
        "\n1. 📱 ICCID: 89440000000000000001\n   ├─ IMSI: N/A\n   ├─ MSISDN: N/A\n   ├─ Status: Unknown (99)\n   ├─ Card Type: N/A\n   ├─ Enterprise: N/A\n   ├─ Data Plan: N/A\n   ├─ Activation Time: N/A\n   ├─ Expiration Time: N/A\n   └─ Label: None\n"
    ∧ renderSimEntry (.obj [("simState", .num 6)]) 0 =
        "\n1. 📱 ICCID: N/A\n   ├─ IMSI: N/A\n   ├─ MSISDN: N/A\n   ├─ Status: Active\n   ├─ Card Type: N/A\n   ├─ Enterprise: N/A\n   ├─ Data Plan: N/A\n   ├─ Activation Time: N/A\n   ├─ Expiration Time: N/A\n   └─ Label: None\n" := by
  refine ⟨rfl, rfl, ?_, ?_, rfl, rfl⟩
  · intro rest
    simp [JsValue.get, List.lookup]
    rfl
  · intro rest
    simp [JsValue.get, List.lookup]
    rfl
